import Mathlib

/-!
Verification of the Spirograph curve-generation pipeline
(`src/spirograph/generator.py` and `src/spirograph/config.py`).

Python floats are modelled as real numbers; `math.cos`/`math.sin` become
`Real.cos`/`Real.sin`; Python `int()` truncation toward zero becomes `pyInt`;
the fallible `points_to_path` (which raises `ValueError` on an empty input)
returns `Except String String`.
-/

/-- `SpiroType` from `config.py`: the curve family. -/
inductive SpiroType where
  | hypotrochoid
  | epitrochoid
deriving DecidableEq, Repr

/-- `SpiroConfig` from `config.py`: all knobs controlling the design. -/
structure SpiroConfig where
  outer_radius : ℝ
  inner_radius : ℝ
  pen_offset : ℝ
  theta_step : ℝ
  cycles : ℝ
  stroke_width : ℝ
  stroke_color : String
  canvas_size : ℕ
  spiro_type : SpiroType

/-- A 2D point, as in `generator.py` (`Point = Tuple[float, float]`). -/
def Point : Type := ℝ × ℝ

/-- `SpiroConfig.extent` from `config.py`: min and max radius for scaling. -/
noncomputable def SpiroConfig.extent (c : SpiroConfig) : ℝ × ℝ :=
  if c.spiro_type = SpiroType.hypotrochoid then
    (c.outer_radius - c.inner_radius - c.pen_offset, c.outer_radius + c.pen_offset)
  else
    (0, c.outer_radius + c.inner_radius + c.pen_offset)

/-- `_hypotrochoid_point` from `generator.py`. -/
noncomputable def hypotrochoid_point (theta : ℝ) (c : SpiroConfig) : Point :=
  let r := c.inner_radius
  let R := c.outer_radius
  let d := c.pen_offset
  let k := R - r
  let angle_multiplier := k / r
  (k * Real.cos theta + d * Real.cos (angle_multiplier * theta),
   k * Real.sin theta - d * Real.sin (angle_multiplier * theta))

/-- `_epitrochoid_point` from `generator.py`. -/
noncomputable def epitrochoid_point (theta : ℝ) (c : SpiroConfig) : Point :=
  let r := c.inner_radius
  let R := c.outer_radius
  let d := c.pen_offset
  let k := R + r
  let angle_multiplier := k / r
  (k * Real.cos theta - d * Real.cos (angle_multiplier * theta),
   k * Real.sin theta - d * Real.sin (angle_multiplier * theta))

/-- Python `int(x)` on a real value: truncation toward zero. -/
noncomputable def pyInt (x : ℝ) : ℤ :=
  if 0 ≤ x then ⌊x⌋ else ⌈x⌉

/-- The step count of `generate_points`:
`steps = max(1, int(2 * math.pi * cycles / theta_step))`. -/
noncomputable def steps (c : SpiroConfig) : ℤ :=
  max 1 (pyInt (2 * Real.pi * c.cycles / c.theta_step))

/-- `generate_points` from `generator.py`: sample the curve at
`theta = index * theta_step` for `index = 0 .. steps` inclusive. -/
noncomputable def generate_points (c : SpiroConfig) : List Point :=
  (List.range ((steps c).toNat + 1)).map (fun (index : ℕ) =>
    let theta := (index : ℝ) * c.theta_step
    if c.spiro_type = SpiroType.hypotrochoid then
      hypotrochoid_point theta c
    else
      epitrochoid_point theta c)

/-- Python `math.isclose(a, b)` with its default tolerances
`rel_tol = 1e-9`, `abs_tol = 0.0`:
`abs(a-b) <= max(rel_tol * max(abs(a), abs(b)), abs_tol)`. -/
def isclose (a b : ℝ) : Prop :=
  |a - b| ≤ max ((1e-9 : ℝ) * max |a| |b|) 0

/-- The raw span `max_extent - min_extent` computed in `scale_points`. -/
noncomputable def span_raw (c : SpiroConfig) : ℝ :=
  c.extent.2 - c.extent.1

open Classical in
/-- The span after the degenerate-span guard of `scale_points`:
`if math.isclose(span, 0.0): span = max(config.outer_radius, 1.0)`. -/
noncomputable def span_used (c : SpiroConfig) : ℝ :=
  if isclose (span_raw c) 0 then max c.outer_radius 1 else span_raw c

/-- `half_canvas = config.canvas_size / 2` from `scale_points`. -/
noncomputable def half_canvas (c : SpiroConfig) : ℝ :=
  (c.canvas_size : ℝ) / 2

/-- `scale = half_canvas / max(span / 2, 1.0)` from `scale_points`. -/
noncomputable def scale_factor (c : SpiroConfig) : ℝ :=
  half_canvas c / max (span_used c / 2) 1

/-- `scale_points` from `generator.py`: empty input yields empty output,
otherwise every point is mapped to
`(half_canvas + x * scale, half_canvas + y * scale)`. -/
noncomputable def scale_points (points : List Point) (c : SpiroConfig) : List Point :=
  match points with
  | [] => []
  | _ :: _ =>
    points.map (fun p =>
      (half_canvas c + p.1 * scale_factor c, half_canvas c + p.2 * scale_factor c))

/-- Zero-pad a natural number below 1000 to three decimal digits. -/
def padLeft3 (k : ℕ) : String :=
  if k < 10 then "00" ++ toString k
  else if k < 100 then "0" ++ toString k
  else toString k

/-- Render `n` thousandths as a fixed-point decimal with three digits
after the point, e.g. `fmtMilli 10000 = "10.000"`. -/
def fmtMilli (n : ℤ) : String :=
  let sign := if n < 0 then "-" else ""
  let m := n.natAbs
  sign ++ toString (m / 1000) ++ "." ++ padLeft3 (m % 1000)

/-- Python `f"{x:.3f}"`: round `x` to the nearest thousandth and render it
with exactly three digits after the decimal point. -/
noncomputable def fmt3 (x : ℝ) : String :=
  fmtMilli (round (x * 1000))

/-- `points_to_path` from `generator.py`: `M` command for the first point,
`L` commands for the rest, joined by single spaces; the empty sequence
raises `ValueError`, modelled as `Except.error`. -/
noncomputable def points_to_path (points : List Point) : Except String String :=
  match points with
  | [] => Except.error "Cannot build a path from an empty sequence of points"
  | first :: rest =>
    let segments :=
      ("M " ++ fmt3 first.1 ++ " " ++ fmt3 first.2) ::
        rest.map (fun p => "L " ++ fmt3 p.1 ++ " " ++ fmt3 p.2)
    Except.ok (String.intercalate " " segments)

/-- `generate_path` from `generator.py`: the composed pipeline. -/
noncomputable def generate_path (c : SpiroConfig) : Except String String :=
  points_to_path (scale_points (generate_points c) c)

/-- The default configuration of `cli.py` (`KNOBS` defaults). -/
noncomputable def cfg_default : SpiroConfig :=
  { outer_radius := 180
    inner_radius := 75
    pen_offset := 40
    theta_step := 0.02
    cycles := 20
    stroke_width := 2
    stroke_color := "#1f77b4"
    canvas_size := 900
    spiro_type := SpiroType.hypotrochoid }

/-- Length of `scale_points` output equals the input length. -/
theorem scale_points_length (pts : List Point) (c : SpiroConfig) :
    (scale_points pts c).length = pts.length := by
  cases pts with
  | nil => rfl
  | cons p l => simp [scale_points]

/-- Length of `generate_points` output is `steps + 1`. -/
theorem generate_points_length (c : SpiroConfig) :
    (generate_points c).length = (steps c).toNat + 1 := by
  rw [generate_points, List.length_map, List.length_range]

/-- C1: `points_to_path` on the empty sequence is the invalid-input error
(Python `ValueError`, the spec's `EmptyCurveError`) and never a path string. -/
theorem points_to_path_empty :
    points_to_path ([] : List Point) =
      Except.error "Cannot build a path from an empty sequence of points"
    ∧ ∀ s : String, points_to_path ([] : List Point) ≠ Except.ok s := by
  refine ⟨rfl, fun s h => ?_⟩
  simp [points_to_path] at h

/-- C8: `scale_points` of an empty raw curve is the empty scaled curve. -/
theorem scale_points_empty (c : SpiroConfig) :
    scale_points ([] : List Point) c = [] := rfl

/-- C7: the pipeline is deterministic — identical configurations give
identical path strings. -/
theorem generate_path_deterministic (c : SpiroConfig) :
    generate_path c = generate_path c := rfl

/-- With Python's default tolerances (`rel_tol = 1e-9`, `abs_tol = 0.0`),
`math.isclose(x, 0.0)` holds exactly when `x = 0`. -/
theorem isclose_zero_iff (x : ℝ) : isclose x 0 ↔ x = 0 := by
  unfold isclose
  rw [sub_zero, abs_zero, max_eq_left (abs_nonneg x),
      max_eq_left (by positivity : (0:ℝ) ≤ (1e-9 : ℝ) * |x|)]
  constructor
  · intro h
    have hx : |x| ≤ 0 := by nlinarith [abs_nonneg x]
    exact abs_eq_zero.mp (le_antisymm hx (abs_nonneg x))
  · intro h
    subst h
    simp

/-- On a nonempty input, `scale_points` is the pointwise affine transform. -/
theorem scale_points_eq_map (pts : List Point) (c : SpiroConfig) (h : pts ≠ []) :
    scale_points pts c =
      pts.map (fun p =>
        (half_canvas c + p.1 * scale_factor c, half_canvas c + p.2 * scale_factor c)) := by
  cases pts with
  | nil => exact absurd rfl h
  | cons p l => rfl

/-- C2 counterexample: for the default configuration, the point whose
coordinates equal the arithmetic mean of the two extent values is NOT mapped
by `scale_points` to the canvas center `(canvas_size/2, canvas_size/2)`. -/
theorem scale_points_mean_not_center :
    scale_points
        [((cfg_default.extent.1 + cfg_default.extent.2) / 2,
          (cfg_default.extent.1 + cfg_default.extent.2) / 2)] cfg_default ≠
      [(((cfg_default.canvas_size : ℝ)) / 2, ((cfg_default.canvas_size : ℝ)) / 2)] := by
  have hext : cfg_default.extent = ((65 : ℝ), (220 : ℝ)) := by
    simp only [SpiroConfig.extent, cfg_default]
    norm_num
  have hspan : span_raw cfg_default = 155 := by
    rw [span_raw, hext]
    norm_num
  have h1 : ¬ isclose (span_raw cfg_default) 0 := by
    rw [isclose_zero_iff, hspan]
    norm_num
  have hused : span_used cfg_default = 155 := by
    rw [span_used, if_neg h1, hspan]
  have hmax : max ((155 : ℝ) / 2) 1 = 155 / 2 := max_eq_left (by norm_num)
  have hsf : scale_factor cfg_default = 180 / 31 := by
    rw [scale_factor, half_canvas, hused, hmax]
    norm_num [cfg_default]
  intro h
  rw [scale_points_eq_map _ _ (by simp), hext] at h
  simp only [List.map_cons, List.map_nil, List.cons.injEq, Prod.mk.injEq, and_true] at h
  rw [hsf, half_canvas] at h
  norm_num [cfg_default] at h

/-- C2 (amended): the raw origin `(0, 0)` — rather than the mean of the
extent values — is mapped by the scale transform of `scale_points` to
exactly `(canvas_size/2, canvas_size/2)`, for every configuration. -/
theorem scale_points_zero_to_center (c : SpiroConfig) :
    scale_points [((0 : ℝ), (0 : ℝ))] c =
      [(((c.canvas_size : ℝ)) / 2, ((c.canvas_size : ℝ)) / 2)] := by
  rw [scale_points_eq_map _ _ (by simp)]
  simp [half_canvas]

/-- C10: any occurrence of the raw origin `(0, 0)` in the input sequence is
mapped by `scale_points` to the canvas center, at the same position, for
every configuration — regardless of extent, span, or curve kind. -/
theorem scale_points_origin_fixed (c : SpiroConfig) (pts : List Point) (i : ℕ)
    (h0 : pts.get? i = some ((0 : ℝ), (0 : ℝ))) :
    (scale_points pts c).get? i =
      some (((c.canvas_size : ℝ)) / 2, ((c.canvas_size : ℝ)) / 2) := by
  have hne : pts ≠ [] := by
    intro h
    subst h
    simp at h0
  rw [scale_points_eq_map _ _ hne, List.get?_map, h0]
  simp [half_canvas]

/-- C10 witness: a singleton raw curve at the origin lands on the center of
the default canvas. -/
theorem scale_points_origin_fixed_witness :
    (scale_points [((0 : ℝ), (0 : ℝ))] cfg_default).get? 0 =
      some (((cfg_default.canvas_size : ℝ)) / 2, ((cfg_default.canvas_size : ℝ)) / 2) :=
  scale_points_origin_fixed cfg_default [((0 : ℝ), (0 : ℝ))] 0 rfl

/-- A configuration whose extent span is exactly zero: a hypotrochoid with
`inner_radius = pen_offset = 0`, so the extent is `(180, 180)`. -/
noncomputable def cfg_degenerate : SpiroConfig :=
  { cfg_default with inner_radius := 0, pen_offset := 0 }

/-- C3: whenever the raw span passes the `math.isclose(span, 0.0)` test of
`scale_points` (with the default tolerances this means `span = 0`), the value
`max(outer_radius, 1.0)` is substituted for the span; the scale denominator
is then at least 1 — so no division by zero can occur — and every output
coordinate of `scale_points` is finite and bounded in terms of its input
coordinate: `|out| ≤ half_canvas * (1 + |in|)`. -/
theorem scale_points_degenerate_span (c : SpiroConfig)
    (h : isclose (span_raw c) 0) :
    span_used c = max c.outer_radius 1
    ∧ 1 ≤ max (span_used c / 2) 1
    ∧ ∀ (pts : List Point), ∀ q ∈ scale_points pts c, ∃ p ∈ pts,
        |q.1| ≤ half_canvas c * (1 + |p.1|)
        ∧ |q.2| ≤ half_canvas c * (1 + |p.2|) := by
  have hhalf0 : 0 ≤ half_canvas c := by
    rw [half_canvas]
    positivity
  have hden : 1 ≤ max (span_used c / 2) 1 := le_max_right _ _
  have hs0 : 0 ≤ scale_factor c := by
    rw [scale_factor]
    exact div_nonneg hhalf0 (le_trans zero_le_one hden)
  have hs1 : scale_factor c ≤ half_canvas c := by
    rw [scale_factor]
    exact div_le_self hhalf0 hden
  refine ⟨by rw [span_used, if_pos h], hden, ?_⟩
  intro pts q hq
  have hne : pts ≠ [] := by
    intro hnil
    subst hnil
    simp [scale_points] at hq
  rw [scale_points_eq_map _ _ hne] at hq
  obtain ⟨p, hp, hfq⟩ := List.mem_map.mp hq
  refine ⟨p, hp, ?_, ?_⟩
  · have h1 : q.1 = half_canvas c + p.1 * scale_factor c := by
      rw [← hfq]
    calc |q.1| = |half_canvas c + p.1 * scale_factor c| := by rw [h1]
      _ ≤ |half_canvas c| + |p.1 * scale_factor c| := abs_add _ _
      _ = half_canvas c + |p.1| * scale_factor c := by
          rw [abs_of_nonneg hhalf0, abs_mul, abs_of_nonneg hs0]
      _ ≤ half_canvas c + |p.1| * half_canvas c := by
          have := mul_le_mul_of_nonneg_left hs1 (abs_nonneg p.1)
          linarith
      _ = half_canvas c * (1 + |p.1|) := by ring
  · have h2 : q.2 = half_canvas c + p.2 * scale_factor c := by
      rw [← hfq]
    calc |q.2| = |half_canvas c + p.2 * scale_factor c| := by rw [h2]
      _ ≤ |half_canvas c| + |p.2 * scale_factor c| := abs_add _ _
      _ = half_canvas c + |p.2| * scale_factor c := by
          rw [abs_of_nonneg hhalf0, abs_mul, abs_of_nonneg hs0]
      _ ≤ half_canvas c + |p.2| * half_canvas c := by
          have := mul_le_mul_of_nonneg_left hs1 (abs_nonneg p.2)
          linarith
      _ = half_canvas c * (1 + |p.2|) := by ring

/-- C3 witness: the zero-span configuration satisfies the guard hypothesis
and enjoys the substitution, nonzero denominator, and boundedness. -/
theorem scale_points_degenerate_span_witness :
    span_used cfg_degenerate = max cfg_degenerate.outer_radius 1
    ∧ 1 ≤ max (span_used cfg_degenerate / 2) 1
    ∧ ∀ (pts : List Point), ∀ q ∈ scale_points pts cfg_degenerate, ∃ p ∈ pts,
        |q.1| ≤ half_canvas cfg_degenerate * (1 + |p.1|)
        ∧ |q.2| ≤ half_canvas cfg_degenerate * (1 + |p.2|) :=
  scale_points_degenerate_span cfg_degenerate (by
    rw [isclose_zero_iff, span_raw]
    simp only [SpiroConfig.extent, cfg_degenerate, cfg_default]
    norm_num)

/-- C4: the scaler preserves length, and the sampler produces exactly
`steps + 1` points where `steps = max(1, floor(2*pi*cycles/theta_step))`. -/
theorem pipeline_length_invariant (c : SpiroConfig)
    (h1 : 0 < c.theta_step) (h2 : 0 < c.cycles) :
    (scale_points (generate_points c) c).length = (generate_points c).length
    ∧ (generate_points c).length
        = (max 1 ⌊2 * Real.pi * c.cycles / c.theta_step⌋).toNat + 1 := by
  refine ⟨scale_points_length _ _, ?_⟩
  have hx : (0 : ℝ) ≤ 2 * Real.pi * c.cycles / c.theta_step := by
    apply div_nonneg _ h1.le
    have hpi := Real.pi_pos
    nlinarith
  rw [generate_points_length, steps, pyInt, if_pos hx]

/-- A configuration with `cycles = 1` and `theta_step = pi`. -/
noncomputable def cfg_pi : SpiroConfig :=
  { cfg_default with theta_step := Real.pi, cycles := 1 }

/-- C4 witness: with `cycles = 1`, `theta_step = pi`, the sampler produces
`max(1, floor(2*pi/pi)) + 1 = 3` points and the scaler preserves that. -/
theorem pipeline_length_invariant_witness :
    (scale_points (generate_points cfg_pi) cfg_pi).length = (generate_points cfg_pi).length
    ∧ (generate_points cfg_pi).length = 3 := by
  have h := pipeline_length_invariant cfg_pi
    (by simp only [cfg_pi]; exact Real.pi_pos)
    (by norm_num [cfg_pi, cfg_default])
  refine ⟨h.1, h.2.trans ?_⟩
  have harg : 2 * Real.pi * cfg_pi.cycles / cfg_pi.theta_step = 2 := by
    simp only [cfg_pi]
    rw [mul_one, mul_div_assoc, div_self Real.pi_ne_zero, mul_one]
  rw [harg]
  norm_num
  decide

/-- C9: for a valid configuration the sampler yields at least 2 points, so
the composed pipeline `generate_path` always returns a path string and the
empty-sequence error branch of `points_to_path` is unreachable. -/
theorem generate_path_no_empty_error (c : SpiroConfig)
    (h1 : 0 < c.theta_step) (h2 : 0 < c.cycles) :
    2 ≤ (generate_points c).length
    ∧ ∃ s : String, generate_path c = Except.ok s := by
  have hst : (1 : ℤ) ≤ steps c := by
    rw [steps]
    exact le_max_left _ _
  have hlen : 2 ≤ (generate_points c).length := by
    rw [generate_points_length]
    omega
  refine ⟨hlen, ?_⟩
  obtain ⟨p, l, hpl⟩ : ∃ p l, generate_points c = p :: l := by
    cases hgen : generate_points c with
    | nil => rw [hgen] at hlen; simp at hlen
    | cons p l => exact ⟨p, l, rfl⟩
  rw [generate_path, hpl]
  exact ⟨_, rfl⟩

/-- C9 witness: the default configuration takes the non-error path. -/
theorem generate_path_no_empty_error_witness :
    2 ≤ (generate_points cfg_default).length
    ∧ ∃ s : String, generate_path cfg_default = Except.ok s :=
  generate_path_no_empty_error cfg_default
    (by norm_num [cfg_default]) (by norm_num [cfg_default])

/-- C5: for a hypotrochoid configuration, the sample at index `i` is the
curve formula evaluated at `theta = i * theta_step`, with
`k = outer_radius - inner_radius` and multiplier `k / inner_radius`. -/
theorem hypotrochoid_sample (c : SpiroConfig)
    (hk : c.spiro_type = SpiroType.hypotrochoid)
    (i : ℕ) (hi : i < (generate_points c).length) :
    (generate_points c).get? i =
      some (((c.outer_radius - c.inner_radius) * Real.cos ((i : ℝ) * c.theta_step)
          + c.pen_offset * Real.cos
              (((c.outer_radius - c.inner_radius) / c.inner_radius)
                * ((i : ℝ) * c.theta_step)),
        (c.outer_radius - c.inner_radius) * Real.sin ((i : ℝ) * c.theta_step)
          - c.pen_offset * Real.sin
              (((c.outer_radius - c.inner_radius) / c.inner_radius)
                * ((i : ℝ) * c.theta_step)))) := by
  have hi' : i < (steps c).toNat + 1 := by
    rwa [generate_points_length] at hi
  rw [generate_points, List.get?_map, List.get?_range hi']
  simp [hk, hypotrochoid_point]

/-- C5 witness: with outer_radius = 180, inner_radius = 75, pen_offset = 40
the first sample (`theta = 0`) is exactly `(145, 0)`. -/
theorem hypotrochoid_sample_witness :
    (generate_points cfg_default).get? 0 = some ((145 : ℝ), (0 : ℝ)) := by
  have hi : 0 < (generate_points cfg_default).length := by
    rw [generate_points_length]
    exact Nat.succ_pos _
  have h := hypotrochoid_sample cfg_default rfl 0 hi
  rw [h]
  simp only [cfg_default, Nat.cast_zero, zero_mul, mul_zero,
    Real.cos_zero, Real.sin_zero]
  norm_num

/-- Formatting an integer-valued real with Python's `"%.3f"`. -/
theorem fmt3_intCast (n : ℤ) : fmt3 ((n : ℤ) : ℝ) = fmtMilli (n * 1000) := by
  rw [fmt3, show ((n : ℤ) : ℝ) * 1000 = ((n * 1000 : ℤ) : ℝ) by push_cast; ring,
    round_intCast]

/-- C6: `points_to_path` on a nonempty sequence emits an absolute move-to
for the first point and absolute line-tos for the rest, in input order,
each coordinate formatted to exactly 3 decimal digits; in particular
`[(10, 20), (30, 40)]` encodes to `"M 10.000 20.000 L 30.000 40.000"`. -/
theorem points_to_path_format :
    (∀ (p : Point) (ps : List Point),
      points_to_path (p :: ps) =
        Except.ok (String.intercalate " "
          (("M " ++ fmt3 p.1 ++ " " ++ fmt3 p.2) ::
            ps.map (fun q => "L " ++ fmt3 q.1 ++ " " ++ fmt3 q.2))))
    ∧ points_to_path [((10 : ℝ), (20 : ℝ)), ((30 : ℝ), (40 : ℝ))] =
        Except.ok "M 10.000 20.000 L 30.000 40.000" := by
  constructor
  · intro p ps
    rfl
  · have h10 : fmt3 ((10 : ℝ)) = "10.000" := by
      rw [show ((10 : ℝ)) = (((10 : ℤ) : ℝ)) by norm_num, fmt3_intCast]
      rfl
    have h20 : fmt3 ((20 : ℝ)) = "20.000" := by
      rw [show ((20 : ℝ)) = (((20 : ℤ) : ℝ)) by norm_num, fmt3_intCast]
      rfl
    have h30 : fmt3 ((30 : ℝ)) = "30.000" := by
      rw [show ((30 : ℝ)) = (((30 : ℤ) : ℝ)) by norm_num, fmt3_intCast]
      rfl
    have h40 : fmt3 ((40 : ℝ)) = "40.000" := by
      rw [show ((40 : ℝ)) = (((40 : ℤ) : ℝ)) by norm_num, fmt3_intCast]
      rfl
    show Except.ok (String.intercalate " "
        (("M " ++ fmt3 (10 : ℝ) ++ " " ++ fmt3 (20 : ℝ)) ::
          ["L " ++ fmt3 (30 : ℝ) ++ " " ++ fmt3 (40 : ℝ)])) =
      Except.ok "M 10.000 20.000 L 30.000 40.000"
    rw [h10, h20, h30, h40]
    rfl
